import Mathlib

/-!
Verification of the voice-health analysis pipeline.

Shallow embedding of the Python backend:
- `backend/app/models/prediction_model.py` (`PredictionModel`)
- `backend/app/services/audio_service.py` (`AudioService`)
- `backend/app/services/prediction_service.py` (`PredictionService`)
- `backend/app/models/feature_extractor.py` (`FeatureExtractor`)

Machine floats are modelled by `ℚ` (or `ℝ` where the code applies the
exponential); external numeric library calls whose exact value the code
does not branch on (numpy `std`, `log10`, the fitted scaler transform,
the pickled classifier) are taken as inputs of the embedding.
-/

/-- Python `int(x)` applied to a float: truncation toward zero. -/
def pyTrunc (q : ℚ) : ℤ := if 0 ≤ q then ⌊q⌋ else ⌈q⌉

namespace PredictionModel

/-- `PredictionModel.calculate_confidence`: `int((abs(p - 0.5) * 2) * 100)`
clamped into `[50, 100]` by `max(50, min(100, confidence))`. -/
def calculate_confidence (probability : ℚ) : ℤ :=
  max 50 (min 100 (pyTrunc (|probability - 1/2| * 2 * 100)))

/-- `PredictionModel.calculate_health_score`: `int((1 - probability) * 100)`
clamped into `[0, 100]` by `max(0, min(100, health_score))`. -/
def calculate_health_score (probability : ℚ) : ℤ :=
  max 0 (min 100 (pyTrunc ((1 - probability) * 100)))

/-- `PredictionModel.calculate_risk_level`. -/
def calculate_risk_level (probability : ℚ) : String :=
  if probability < 3/10 then "low"
  else if probability < 7/10 then "medium"
  else "high"

/-- `PredictionModel.map_to_status`: `mapping.get(risk_level, 'normal')`
over the literal dict in the source. -/
def map_to_status (risk_level : String) : String :=
  (([("low", "normal"), ("medium", "warning"), ("high", "alert")].lookup
      risk_level).getD "normal")

/-- Modelled from the spec: `confidence(p)` as the spec writes it,
with rounding to the nearest integer instead of the code's truncation. -/
def confidence_spec (p : ℚ) : ℤ :=
  max 50 (min 100 (round (|p - 1/2| * 2 * 100)))

/-- Modelled from the spec: `health_score(p)` as the spec writes it,
with rounding to the nearest integer instead of the code's truncation. -/
def health_score_spec (p : ℚ) : ℤ :=
  max 0 (min 100 (round ((1 - p) * 100)))

end PredictionModel

theorem pyTrunc_of_nonneg {q : ℚ} (h : 0 ≤ q) : pyTrunc q = ⌊q⌋ := by
  simp [pyTrunc, h]

theorem pyTrunc_mono {x y : ℚ} (h : x ≤ y) : pyTrunc x ≤ pyTrunc y := by
  unfold pyTrunc
  by_cases hx : 0 ≤ x
  · rw [if_pos hx, if_pos (hx.trans h)]
    exact Int.floor_le_floor h
  · rw [if_neg hx]
    by_cases hy : 0 ≤ y
    · rw [if_pos hy]
      refine le_trans (Int.ceil_le.mpr ?_) (Int.floor_nonneg.mpr hy)
      exact_mod_cast le_of_not_le hx
    · rw [if_neg hy]
      exact Int.ceil_le_ceil h

theorem pyTrunc_clamp_bounds {x : ℚ} (h0 : 0 ≤ x) (h100 : x ≤ 100) :
    0 ≤ pyTrunc x ∧ pyTrunc x ≤ 100 := by
  rw [pyTrunc_of_nonneg h0]
  refine ⟨Int.floor_nonneg.mpr h0, ?_⟩
  have h := Int.floor_le_floor h100
  simpa using h

/-- Claim C3 counterexample: at `p = 303/400` the code truncates
`|p-0.5|*2*100 = 51.5` to `51`, while the spec's formula rounds it to `52`. -/
theorem calculate_confidence_ne_spec_at_303_400 :
    PredictionModel.calculate_confidence (303/400) = 51 ∧
    PredictionModel.confidence_spec (303/400) = 52 := by
  constructor
  · norm_num [PredictionModel.calculate_confidence, pyTrunc, abs_of_nonneg]
  · norm_num [PredictionModel.confidence_spec, round_eq, abs_of_nonneg]

/-- Claim C3 (amended): `calculate_confidence p` equals
`clamp(trunc(|p-0.5|*2*100), 50, 100)` — truncation toward zero (Python
`int()`), which on this nonnegative argument is the floor, not rounding
to the nearest integer; `confidence(0.5)=50`, `confidence(0)=confidence(1)=100`,
and the result is always an integer in `[50, 100]`. -/
theorem calculate_confidence_floor_clamp :
    (∀ p : ℚ, PredictionModel.calculate_confidence p
        = max 50 (min 100 ⌊|p - 1/2| * 2 * 100⌋)) ∧
    PredictionModel.calculate_confidence (1/2) = 50 ∧
    PredictionModel.calculate_confidence 0 = 100 ∧
    PredictionModel.calculate_confidence 1 = 100 ∧
    (∀ p : ℚ, 50 ≤ PredictionModel.calculate_confidence p ∧
        PredictionModel.calculate_confidence p ≤ 100) := by
  refine ⟨?_,
    by norm_num [PredictionModel.calculate_confidence, pyTrunc, abs_of_nonneg],
    by norm_num [PredictionModel.calculate_confidence, pyTrunc, abs_of_nonpos],
    by norm_num [PredictionModel.calculate_confidence, pyTrunc, abs_of_nonneg], ?_⟩
  · intro p
    unfold PredictionModel.calculate_confidence
    rw [pyTrunc_of_nonneg (by positivity)]
  · intro p
    unfold PredictionModel.calculate_confidence
    constructor
    · exact le_max_left _ _
    · exact max_le (by norm_num) (min_le_left _ _)

/-- Claim C4 counterexample: at `p = 1/200` the code truncates
`(1-p)*100 = 99.5` to `99`, while the spec's formula rounds it to `100`. -/
theorem calculate_health_score_ne_spec_at_1_200 :
    PredictionModel.calculate_health_score (1/200) = 99 ∧
    PredictionModel.health_score_spec (1/200) = 100 := by
  constructor
  · norm_num [PredictionModel.calculate_health_score, pyTrunc]
  · norm_num [PredictionModel.health_score_spec, round_eq]

/-- Claim C4 (amended): for `p ∈ [0,1]`, `calculate_health_score p` equals
`clamp(trunc((1-p)*100), 0, 100)` — truncation toward zero (Python `int()`),
which on this nonnegative argument is the floor, not rounding to the
nearest integer; `health_score(0)=100`, `health_score(1)=0`, and
`calculate_health_score` is monotonically non-increasing in `p`. -/
theorem calculate_health_score_floor_clamp :
    (∀ p : ℚ, 0 ≤ p → p ≤ 1 →
        PredictionModel.calculate_health_score p
          = max 0 (min 100 ⌊(1 - p) * 100⌋)) ∧
    PredictionModel.calculate_health_score 0 = 100 ∧
    PredictionModel.calculate_health_score 1 = 0 ∧
    (∀ p q : ℚ, p ≤ q →
        PredictionModel.calculate_health_score q
          ≤ PredictionModel.calculate_health_score p) := by
  refine ⟨?_,
    by norm_num [PredictionModel.calculate_health_score, pyTrunc],
    by norm_num [PredictionModel.calculate_health_score, pyTrunc], ?_⟩
  · intro p hp0 hp1
    unfold PredictionModel.calculate_health_score
    rw [pyTrunc_of_nonneg (by nlinarith)]
  · intro p q hpq
    unfold PredictionModel.calculate_health_score
    have h : (1 - q) * 100 ≤ (1 - p) * 100 := by nlinarith
    have ht := pyTrunc_mono h
    exact max_le_max (le_refl 0) (min_le_min (le_refl 100) ht)

/-- Claim C4 witness: the amended statement instantiated at `p = 1/4`
and the monotonicity part at the pair `(1/3, 2/3)`. -/
theorem calculate_health_score_floor_clamp_witness :
    PredictionModel.calculate_health_score (1/4)
      = max 0 (min 100 ⌊(1 - (1/4 : ℚ)) * 100⌋) ∧
    PredictionModel.calculate_health_score (2/3)
      ≤ PredictionModel.calculate_health_score (1/3) :=
  ⟨calculate_health_score_floor_clamp.1 (1/4) (by norm_num) (by norm_num),
   calculate_health_score_floor_clamp.2.2.2 (1/3) (2/3) (by norm_num)⟩

/-- Claim C5: risk-level bucketing with inclusive-lower / exclusive-upper
boundaries (except the final bucket) and the status mapping
low→normal, medium→warning, high→alert. -/
theorem risk_level_buckets_and_status (p : ℚ) :
    (p < 3/10 → PredictionModel.calculate_risk_level p = "low" ∧
        PredictionModel.map_to_status (PredictionModel.calculate_risk_level p)
          = "normal") ∧
    (3/10 ≤ p → p < 7/10 → PredictionModel.calculate_risk_level p = "medium" ∧
        PredictionModel.map_to_status (PredictionModel.calculate_risk_level p)
          = "warning") ∧
    (7/10 ≤ p → PredictionModel.calculate_risk_level p = "high" ∧
        PredictionModel.map_to_status (PredictionModel.calculate_risk_level p)
          = "alert") := by
  refine ⟨?_, ?_, ?_⟩
  · intro h
    rw [PredictionModel.calculate_risk_level, if_pos h]
    exact ⟨rfl, rfl⟩
  · intro h1 h2
    rw [PredictionModel.calculate_risk_level, if_neg (not_lt.mpr h1), if_pos h2]
    exact ⟨rfl, rfl⟩
  · intro h
    rw [PredictionModel.calculate_risk_level, if_neg (by linarith), if_neg (not_lt.mpr h)]
    exact ⟨rfl, rfl⟩

/-- Claim C5 witness: the three buckets instantiated at `p = 0.1`, `p = 0.5`
and `p = 0.7` (the inclusive boundary of the final bucket). -/
theorem risk_level_buckets_and_status_witness :
    PredictionModel.map_to_status (PredictionModel.calculate_risk_level (1/10))
      = "normal" ∧
    PredictionModel.map_to_status (PredictionModel.calculate_risk_level (1/2))
      = "warning" ∧
    PredictionModel.map_to_status (PredictionModel.calculate_risk_level (7/10))
      = "alert" :=
  ⟨((risk_level_buckets_and_status (1/10)).1 (by norm_num)).2,
   ((risk_level_buckets_and_status (1/2)).2.1 (by norm_num) (by norm_num)).2,
   ((risk_level_buckets_and_status (7/10)).2.2 (by norm_num)).2⟩

namespace AudioService

/-- The `feature_order` list built inside `AudioService.features_to_array`:
`for i in range(1, 14)` append `mfcc_i_mean`, then `mfcc_i_std`, then the
pitch, jitter/shimmer, spectral, zcr, rms and hnr names. -/
def feature_order : List String :=
  ((List.range 13).map fun i => "mfcc_" ++ toString (i + 1) ++ "_mean") ++
  ((List.range 13).map fun i => "mfcc_" ++ toString (i + 1) ++ "_std") ++
  (["pitch_mean", "pitch_std", "pitch_min", "pitch_max"] ++
   (["jitter", "shimmer"] ++
    (["spectral_centroid_mean", "spectral_centroid_std"] ++
     (["zcr_mean", "zcr_std"] ++
      (["rms_mean", "rms_std"] ++ ["hnr"])))))

end AudioService

namespace FeatureExtractor

/-- `FeatureExtractor._get_feature_names`: the separately maintained copy of
the feature-name list in `feature_extractor.py`, built by the same loop
shape as the one in `audio_service.py`. -/
def get_feature_names : List String :=
  ((List.range 13).map fun i => "mfcc_" ++ toString (i + 1) ++ "_mean") ++
  ((List.range 13).map fun i => "mfcc_" ++ toString (i + 1) ++ "_std") ++
  (["pitch_mean", "pitch_std", "pitch_min", "pitch_max"] ++
   (["jitter", "shimmer"] ++
    (["spectral_centroid_mean", "spectral_centroid_std"] ++
     (["zcr_mean", "zcr_std"] ++
      (["rms_mean", "rms_std"] ++ ["hnr"])))))

end FeatureExtractor

/-- Claim C10: the feature-name list of `FeatureExtractor._get_feature_names`
is element-for-element equal to the ordering list built inside
`AudioService.features_to_array`, and both have length 39. -/
theorem feature_name_lists_agree :
    FeatureExtractor.get_feature_names = AudioService.feature_order ∧
    FeatureExtractor.get_feature_names.length = 39 ∧
    AudioService.feature_order.length = 39 := by
  refine ⟨rfl, rfl, rfl⟩

/-- `np.mean` over an exact list of rationals (only consumed on the
non-empty lists the extractor produces). -/
def npMean (xs : List ℚ) : ℚ := xs.sum / xs.length

/-- `np.min` over a non-empty list. -/
def npMin (xs : List ℚ) : ℚ := xs.foldr min (xs.headD 0)

/-- `np.max` over a non-empty list. -/
def npMax (xs : List ℚ) : ℚ := xs.foldr max (xs.headD 0)

/-- `np.mean(np.abs(np.diff(xs)))`: mean absolute consecutive difference. -/
def npDiffAbsMean (xs : List ℚ) : ℚ :=
  npMean ((xs.zip xs.tail).map fun p => |p.2 - p.1|)

/-- Numeric library capabilities whose values the extraction code never
branches on: `np.std` (needs a square root, inexact over `ℚ`) and
`np.log10`. They are inputs of the embedding. -/
structure NumpyEnv where
  std : List ℚ → ℚ
  log10 : ℚ → ℚ

/-- Raw per-frame analysis of one decoded buffer, as delivered by librosa to
`AudioService.extract_features`: 13 MFCC frame rows, the per-frame
magnitude-argmax pitch candidates from `piptrack` (one per time step, any
sign), and the spectral-centroid / zero-crossing-rate / RMS /
spectral-flatness frame rows. -/
structure RawAnalysis where
  mfccs : ℕ → List ℚ
  pitchCandidates : List ℚ
  spectral_centroids : List ℚ
  zcr : List ℚ
  rms : List ℚ
  flatnessMean : ℚ

namespace AudioService

/-- `AudioService.extract_features`, as the insertion-ordered dictionary it
builds: MFCC mean/std pairs for the 13 coefficients, the pitch block (all
four entries 0.0 when no `pitch > 0` candidate exists), jitter (0.0 with
fewer than two voiced frames), spectral centroid, zcr, rms, shimmer
(0.0 with fewer than two rms frames) and the flatness-derived hnr. -/
def extract_features (env : NumpyEnv) (a : RawAnalysis) : List (String × ℚ) :=
  let pitch_values := a.pitchCandidates.filter fun p => 0 < p
  (((List.range 13).map fun i =>
      [("mfcc_" ++ toString (i + 1) ++ "_mean", npMean (a.mfccs i)),
       ("mfcc_" ++ toString (i + 1) ++ "_std", env.std (a.mfccs i))]).flatten) ++
  ((if pitch_values.isEmpty = false then
      [("pitch_mean", npMean pitch_values),
       ("pitch_std", env.std pitch_values),
       ("pitch_min", npMin pitch_values),
       ("pitch_max", npMax pitch_values)]
    else
      [("pitch_mean", 0), ("pitch_std", 0), ("pitch_min", 0), ("pitch_max", 0)]) ++
   ([("jitter", if 1 < pitch_values.length then npDiffAbsMean pitch_values else 0)] ++
    ([("spectral_centroid_mean", npMean a.spectral_centroids),
      ("spectral_centroid_std", env.std a.spectral_centroids)] ++
     ([("zcr_mean", npMean a.zcr), ("zcr_std", env.std a.zcr)] ++
      ([("rms_mean", npMean a.rms), ("rms_std", env.std a.rms)] ++
       ([("shimmer", if 1 < a.rms.length then npDiffAbsMean a.rms else 0)] ++
        [("hnr", -10 * env.log10 (a.flatnessMean + 1/10000000000))]))))))

/-- Python `features.get(key, dflt)` on the feature dictionary. -/
def dictGet (features : List (String × ℚ)) (key : String) (dflt : ℚ) : ℚ :=
  (features.lookup key).getD dflt

/-- `AudioService.features_to_array`: the values of the dictionary read out
in the order of `feature_order`, with `features.get(key, 0.0)`. -/
def features_to_array (features : List (String × ℚ)) : List ℚ :=
  feature_order.map fun key => dictGet features key 0

end AudioService

/-- Claim C1: for every decoded buffer analysis, the array produced by
`features_to_array` on the dictionary produced by `extract_features` has
exactly 39 entries, read out in the fixed documented order (13 MFCC means,
13 MFCC stds, pitch mean/std/min/max, jitter, shimmer, spectral centroid
mean/std, zcr mean/std, rms mean/std, hnr); the dictionary's keys are
exactly the 39 documented names (in insertion order), and with zero voiced
pitch frames the five pitch-derived entries all default to 0. -/
theorem features_to_array_roundtrip (env : NumpyEnv) (a : RawAnalysis) :
    (AudioService.features_to_array (AudioService.extract_features env a)).length
      = 39 ∧
    AudioService.feature_order =
      ["mfcc_1_mean", "mfcc_2_mean", "mfcc_3_mean", "mfcc_4_mean", "mfcc_5_mean",
       "mfcc_6_mean", "mfcc_7_mean", "mfcc_8_mean", "mfcc_9_mean", "mfcc_10_mean",
       "mfcc_11_mean", "mfcc_12_mean", "mfcc_13_mean",
       "mfcc_1_std", "mfcc_2_std", "mfcc_3_std", "mfcc_4_std", "mfcc_5_std",
       "mfcc_6_std", "mfcc_7_std", "mfcc_8_std", "mfcc_9_std", "mfcc_10_std",
       "mfcc_11_std", "mfcc_12_std", "mfcc_13_std",
       "pitch_mean", "pitch_std", "pitch_min", "pitch_max",
       "jitter", "shimmer",
       "spectral_centroid_mean", "spectral_centroid_std",
       "zcr_mean", "zcr_std", "rms_mean", "rms_std", "hnr"] ∧
    AudioService.features_to_array (AudioService.extract_features env a)
      = AudioService.feature_order.map
          (fun key => AudioService.dictGet (AudioService.extract_features env a) key 0) ∧
    (AudioService.extract_features env a).map Prod.fst =
      ["mfcc_1_mean", "mfcc_1_std", "mfcc_2_mean", "mfcc_2_std",
       "mfcc_3_mean", "mfcc_3_std", "mfcc_4_mean", "mfcc_4_std",
       "mfcc_5_mean", "mfcc_5_std", "mfcc_6_mean", "mfcc_6_std",
       "mfcc_7_mean", "mfcc_7_std", "mfcc_8_mean", "mfcc_8_std",
       "mfcc_9_mean", "mfcc_9_std", "mfcc_10_mean", "mfcc_10_std",
       "mfcc_11_mean", "mfcc_11_std", "mfcc_12_mean", "mfcc_12_std",
       "mfcc_13_mean", "mfcc_13_std",
       "pitch_mean", "pitch_std", "pitch_min", "pitch_max",
       "jitter", "spectral_centroid_mean", "spectral_centroid_std",
       "zcr_mean", "zcr_std", "rms_mean", "rms_std", "shimmer", "hnr"] ∧
    ((a.pitchCandidates.filter fun p => 0 < p) = [] →
      AudioService.dictGet (AudioService.extract_features env a) "pitch_mean" 0 = 0 ∧
      AudioService.dictGet (AudioService.extract_features env a) "pitch_std" 0 = 0 ∧
      AudioService.dictGet (AudioService.extract_features env a) "pitch_min" 0 = 0 ∧
      AudioService.dictGet (AudioService.extract_features env a) "pitch_max" 0 = 0 ∧
      AudioService.dictGet (AudioService.extract_features env a) "jitter" 0 = 0) := by
  refine ⟨rfl, rfl, rfl, ?_, ?_⟩
  · cases h : (a.pitchCandidates.filter fun p => 0 < p).isEmpty <;>
      simp only [AudioService.extract_features, h] <;> rfl
  · intro h
    refine ⟨?_, ?_, ?_, ?_, ?_⟩ <;>
      simp only [AudioService.extract_features, AudioService.dictGet, h] <;> rfl

/-- A numeric environment for concrete evaluation. -/
def sampleNumpyEnv : NumpyEnv := { std := fun _ => 0, log10 := fun _ => 0 }

/-- A decoded buffer whose pitch candidates are all zero or negative:
zero voiced pitch frames survive the `pitch > 0` filter. -/
def silentAnalysis : RawAnalysis :=
  { mfccs := fun _ => [0], pitchCandidates := [0, -1],
    spectral_centroids := [0], zcr := [0], rms := [0], flatnessMean := 1 }

/-- Claim C1 witness: the round-trip statement instantiated on a buffer with
zero voiced pitch frames. -/
theorem features_to_array_roundtrip_witness :
    (AudioService.features_to_array
        (AudioService.extract_features sampleNumpyEnv silentAnalysis)).length = 39 ∧
    AudioService.dictGet
        (AudioService.extract_features sampleNumpyEnv silentAnalysis)
        "pitch_mean" 0 = 0 ∧
    AudioService.dictGet
        (AudioService.extract_features sampleNumpyEnv silentAnalysis)
        "jitter" 0 = 0 :=
  ⟨(features_to_array_roundtrip sampleNumpyEnv silentAnalysis).1,
   ((features_to_array_roundtrip sampleNumpyEnv silentAnalysis).2.2.2.2
      (by decide)).1,
   ((features_to_array_roundtrip sampleNumpyEnv silentAnalysis).2.2.2.2
      (by decide)).2.2.2.2⟩

/-- The pickled classifier artifact: `model.predict` (hard class label, the
code casts entry 0 to `int`), and, when the attributes exist,
`model.predict_proba` (class-1 column) and `model.decision_function`.
`Option` models `hasattr`. -/
structure Classifier where
  predictLabel : List ℝ → ℤ
  predict_proba : Option (List ℝ → ℝ)
  decision_function : Option (List ℝ → ℝ)

/-- The pickled scaler artifact: the number of features it was fitted on and
its fitted row transform. `transform` on a row of the wrong length raises a
feature-count `ValueError` instead of applying the map (sklearn's
`n_features_in_` validation). -/
structure Scaler where
  n_features : ℕ
  transformRow : List ℝ → List ℝ

/-- The mutable state of the `PredictionModel` wrapper object. -/
structure Gateway where
  model : Option Classifier
  scaler : Option Scaler
  is_loaded : Bool

/-- The exception the scaler or classifier raises inside the `try` block of
`predict`, before the generic `except` wraps it. -/
inductive PredictInnerErr
  | featureMismatch (got expected : ℕ)
  | attributeNone
deriving DecidableEq

/-- Errors raised by `PredictionModel.predict`. `notLoaded` is the explicit
"Model not loaded" raise; `wrappedException` is `PredictionModelError`
raised by the blanket `except` ("Error making prediction: ...").
`inferenceShapeError` is modelled from the spec: the `InferenceError` the
spec expects an explicit shape/key check to raise before the positional
array is trusted — no code path in the repository produces it and no
`InferenceError` class exists in the source. -/
inductive PredictErr
  | notLoaded
  | wrappedException (inner : PredictInnerErr)
  | inferenceShapeError (got expected : ℕ)
deriving DecidableEq

namespace PredictionModel

/-- `self.scaler.transform` on the (single-row) feature array: sklearn
validates the feature count of the fitted transform and raises on
mismatch. -/
def scalerTransform (s : Scaler) (x : List ℝ) : Except PredictInnerErr (List ℝ) :=
  if x.length = s.n_features then .ok (s.transformRow x)
  else .error (.featureMismatch x.length s.n_features)

/-- The logistic squashing function `1/(1 + e^-x)` applied to the decision
function value. -/
noncomputable def sigmoid (x : ℝ) : ℝ := 1 / (1 + Real.exp (-x))

/-- The probability block of `PredictionModel.predict`: `predict_proba` when
the attribute exists, else the sigmoid of `decision_function`, else the
hard label cast to float. -/
noncomputable def predictProbability (c : Classifier) (xs : List ℝ)
    (label : ℤ) : ℝ :=
  match c.predict_proba with
  | some f => f xs
  | none =>
    match c.decision_function with
    | some d => sigmoid (d xs)
    | none => (label : ℝ)

/-- `PredictionModel.predict`: raise if not loaded; scale the features
(any exception inside the `try` is wrapped); take the hard label; compute
the probability by the three-tier fallback. Accessing `.transform` on a
`None` scaler (or `.predict` on a `None` model) raises an
`AttributeError`, also wrapped. -/
noncomputable def predict (g : Gateway) (x : List ℝ) :
    Except PredictErr (ℤ × ℝ) :=
  if g.is_loaded = false then .error .notLoaded
  else
    match g.scaler, g.model with
    | some s, some c =>
      match scalerTransform s x with
      | .error e => .error (.wrappedException e)
      | .ok xs => .ok (c.predictLabel xs, predictProbability c xs (c.predictLabel xs))
    | _, _ => .error (.wrappedException .attributeNone)

end PredictionModel

theorem sigmoid_mem_unit (x : ℝ) :
    0 ≤ PredictionModel.sigmoid x ∧ PredictionModel.sigmoid x ≤ 1 := by
  unfold PredictionModel.sigmoid
  have hpos : (0 : ℝ) < 1 + Real.exp (-x) := by positivity
  constructor
  · positivity
  · rw [div_le_one hpos]
    have h := Real.exp_pos (-x)
    linarith

/-- Claim C2: with a loaded gateway and a feature row of the fitted length,
`predict` obtains the probability by the three-tier fallback in exact
priority order — `predict_proba` when the attribute exists, otherwise the
logistic of `decision_function`, otherwise the hard label cast to float —
and (given that a native probability output lies in `[0,1]` and the hard
label is 0 or 1) the returned probability always lies in `[0,1]`. -/
theorem predict_three_tier_fallback (g : Gateway) (c : Classifier) (s : Scaler)
    (x : List ℝ)
    (hl : g.is_loaded = true) (hm : g.model = some c) (hs : g.scaler = some s)
    (hx : x.length = s.n_features)
    (hproba : ∀ f, c.predict_proba = some f →
        0 ≤ f (s.transformRow x) ∧ f (s.transformRow x) ≤ 1)
    (hlabel : c.predictLabel (s.transformRow x) = 0 ∨
        c.predictLabel (s.transformRow x) = 1) :
    (∀ f, c.predict_proba = some f →
        PredictionModel.predict g x
          = .ok (c.predictLabel (s.transformRow x), f (s.transformRow x))) ∧
    (c.predict_proba = none → ∀ d, c.decision_function = some d →
        PredictionModel.predict g x
          = .ok (c.predictLabel (s.transformRow x),
              PredictionModel.sigmoid (d (s.transformRow x)))) ∧
    (c.predict_proba = none → c.decision_function = none →
        PredictionModel.predict g x
          = .ok (c.predictLabel (s.transformRow x),
              (c.predictLabel (s.transformRow x) : ℝ))) ∧
    (∀ label p, PredictionModel.predict g x = .ok (label, p) →
        0 ≤ p ∧ p ≤ 1) := by
  have hpred : PredictionModel.predict g x
      = .ok (c.predictLabel (s.transformRow x),
          PredictionModel.predictProbability c (s.transformRow x)
            (c.predictLabel (s.transformRow x))) := by
    simp [PredictionModel.predict, PredictionModel.scalerTransform, hl, hm, hs, hx]
  refine ⟨?_, ?_, ?_, ?_⟩
  · intro f hf
    rw [hpred]
    unfold PredictionModel.predictProbability
    rw [hf]
  · intro h0 d hd
    rw [hpred]
    unfold PredictionModel.predictProbability
    rw [h0, hd]
  · intro h0 h1
    rw [hpred]
    unfold PredictionModel.predictProbability
    rw [h0, h1]
  · intro label p hp
    rw [hpred] at hp
    simp only [Except.ok.injEq, Prod.mk.injEq] at hp
    obtain ⟨-, hp2⟩ := hp
    subst hp2
    unfold PredictionModel.predictProbability
    cases hpp : c.predict_proba with
    | some f => exact hproba f hpp
    | none =>
      cases hdd : c.decision_function with
      | some d => exact sigmoid_mem_unit (d (s.transformRow x))
      | none =>
        rcases hlabel with h | h <;> rw [h] <;> norm_num

/-- A classifier exposing a native probability output fixed at `1/2`. -/
noncomputable def tierOneClassifier : Classifier :=
  { predictLabel := fun _ => 1,
    predict_proba := some fun _ => 1/2,
    decision_function := none }

/-- A scaler fitted on two features whose transform is the identity. -/
def identityScaler : Scaler := { n_features := 2, transformRow := fun x => x }

/-- A gateway in the loaded state holding the two sample artifacts. -/
noncomputable def loadedGateway : Gateway :=
  { model := some tierOneClassifier, scaler := some identityScaler,
    is_loaded := true }

/-- Claim C2 witness: the three-tier statement instantiated on the loaded
sample gateway with a native probability output of `1/2`. -/
theorem predict_three_tier_fallback_witness :
    PredictionModel.predict loadedGateway [0, 0] = .ok (1, (1/2 : ℝ)) ∧
    (0 : ℝ) ≤ 1/2 ∧ (1/2 : ℝ) ≤ 1 := by
  have hp : ∀ f, tierOneClassifier.predict_proba = some f →
      0 ≤ f (identityScaler.transformRow [0, 0]) ∧
      f (identityScaler.transformRow [0, 0]) ≤ 1 := by
    intro f hf
    have h2 : tierOneClassifier.predict_proba = some (fun _ => (1/2 : ℝ)) := rfl
    rw [h2] at hf
    have h3 : (fun _ : List ℝ => (1/2 : ℝ)) = f := Option.some.inj hf
    rw [← h3]
    norm_num
  have h := (predict_three_tier_fallback loadedGateway tierOneClassifier
      identityScaler [0, 0] rfl rfl rfl rfl hp (Or.inr rfl)).1
      (fun _ => (1/2 : ℝ)) rfl
  exact ⟨h, by norm_num, by norm_num⟩

/-- What `pickle` finds at an artifact path: the file may be absent, present
but failing to deserialize, or present and valid. -/
inductive FileContent (α : Type)
  | missing
  | corrupt
  | valid (a : α)

/-- `Path.exists()` for the modelled artifact file. -/
def FileContent.existsOnDisk {α : Type} : FileContent α → Bool
  | .missing => false
  | _ => true

/-- The three raise sites of `load_model`: the two "file not found" checks
and the blanket `except` of the loading `try` block
("Error loading model: ..."). -/
inductive LoadErr
  | modelNotFound
  | scalerNotFound
  | loadingFailed
deriving DecidableEq

namespace PredictionModel

/-- `PredictionModel.load_model` as a transition on the wrapper state: check
that the model file exists, then that the scaler file exists; then inside
the `try` block unpickle the model and assign `self.model`, unpickle the
scaler and assign `self.scaler`, and set `self.is_loaded = True`. An
exception while unpickling the scaler escapes the `try` after `self.model`
has already been assigned. -/
def load_model (g : Gateway) (mf : FileContent Classifier)
    (sf : FileContent Scaler) : Gateway × Option LoadErr :=
  if mf.existsOnDisk = false then (g, some .modelNotFound)
  else if sf.existsOnDisk = false then (g, some .scalerNotFound)
  else
    match mf with
    | .valid c =>
      let g1 : Gateway := { g with model := some c }
      match sf with
      | .valid s => ({ g1 with scaler := some s, is_loaded := true }, none)
      | _ => (g1, some .loadingFailed)
    | _ => (g, some .loadingFailed)

end PredictionModel

/-- A freshly constructed wrapper: `self.model = None`, `self.scaler = None`,
`self.is_loaded = False`. -/
def freshGateway : Gateway := { model := none, scaler := none, is_loaded := false }

/-- A concrete classifier artifact for evaluation. -/
def trivialClassifier : Classifier :=
  { predictLabel := fun _ => 0, predict_proba := none, decision_function := none }

/-- Claim C6 counterexample: loading a valid model file together with a
corrupt scaler file fails, yet leaves the deserialized model retained in
the gateway while the scaler is not — neither "both artifacts retained
with the loaded flag set" nor "neither artifact retained". -/
theorem load_model_counterexample :
    (PredictionModel.load_model freshGateway
        (.valid trivialClassifier) .corrupt).1.model = some trivialClassifier ∧
    (PredictionModel.load_model freshGateway
        (.valid trivialClassifier) .corrupt).1.scaler = none ∧
    (PredictionModel.load_model freshGateway
        (.valid trivialClassifier) .corrupt).1.is_loaded = false ∧
    (PredictionModel.load_model freshGateway
        (.valid trivialClassifier) .corrupt).2 = some .loadingFailed :=
  ⟨rfl, rfl, rfl, rfl⟩

/-- Claim C6 (amended): starting from a fresh gateway, `load_model` succeeds
exactly when both artifact files are present and deserialize; on success
both artifacts are retained and the loaded flag is set; on any failure the
loaded flag stays unset and the scaler is never retained — but the model
reference IS retained in exactly one failure mode, namely when the model
deserializes and the scaler file is present but corrupt, so failure can
leave a partially populated gateway. -/
theorem load_model_state_after (mf : FileContent Classifier)
    (sf : FileContent Scaler) :
    ((PredictionModel.load_model freshGateway mf sf).2 = none ↔
        (∃ c, mf = .valid c) ∧ ∃ s, sf = .valid s) ∧
    ((PredictionModel.load_model freshGateway mf sf).2 = none →
        (PredictionModel.load_model freshGateway mf sf).1.model.isSome = true ∧
        (PredictionModel.load_model freshGateway mf sf).1.scaler.isSome = true ∧
        (PredictionModel.load_model freshGateway mf sf).1.is_loaded = true) ∧
    ((PredictionModel.load_model freshGateway mf sf).2 ≠ none →
        (PredictionModel.load_model freshGateway mf sf).1.is_loaded = false ∧
        (PredictionModel.load_model freshGateway mf sf).1.scaler = none ∧
        ((PredictionModel.load_model freshGateway mf sf).1.model.isSome = true ↔
            (∃ c, mf = .valid c) ∧ sf = .corrupt)) := by
  cases mf <;> cases sf <;>
    simp [PredictionModel.load_model, freshGateway, FileContent.existsOnDisk]

/-- Claim C6 witness: the amended statement instantiated on a corrupt model
file together with a corrupt scaler file. -/
theorem load_model_state_after_witness :
    (PredictionModel.load_model freshGateway .corrupt .corrupt).1.is_loaded
      = false ∧
    (PredictionModel.load_model freshGateway .corrupt .corrupt).1.scaler
      = none :=
  ⟨((load_model_state_after .corrupt .corrupt).2.2
      (fun h => Option.noConfusion h)).1,
   ((load_model_state_after .corrupt .corrupt).2.2
      (fun h => Option.noConfusion h)).2.1⟩

/-- A scaler fitted on the 39 training features. -/
def scaler39 : Scaler := { n_features := 39, transformRow := fun x => x }

/-- A loaded gateway whose scaler expects 39 features. -/
noncomputable def gateway39 : Gateway :=
  { model := some tierOneClassifier, scaler := some scaler39, is_loaded := true }

/-- Claim C7 counterexample: on a loaded gateway expecting 39 features, a
length-1 feature array makes `predict` return the blanket-wrapped
`PredictionModelError` carrying the scaler's own feature-count exception —
not the `InferenceError` of an explicit shape/key check performed before
the positional array is trusted (no such check or exception class exists
in the code). -/
theorem predict_shape_check_counterexample :
    PredictionModel.predict gateway39 [0]
      = .error (.wrappedException (.featureMismatch 1 39)) ∧
    PredictionModel.predict gateway39 [0]
      ≠ .error (.inferenceShapeError 1 39) := by
  have h1 : PredictionModel.predict gateway39 [0]
      = .error (.wrappedException (.featureMismatch 1 39)) := rfl
  refine ⟨h1, ?_⟩
  rw [h1]
  intro h
  have h2 := Except.error.inj h
  exact PredictErr.noConfusion h2

/-- Claim C7 (amended): for every loaded gateway and every feature array
whose length does not match the scaler's fitted feature count, `predict`
raises — the scaler's own feature-count validation throws, and the blanket
`except` wraps it into a `PredictionModelError` — so a mismatched-length
input never yields a (silently wrong) prediction; the rejection comes from
the library transform, not from an explicit shape/key check in `predict`,
and the code has no `InferenceError`. -/
theorem predict_mismatch_always_errors (g : Gateway) (c : Classifier)
    (s : Scaler) (x : List ℝ) (hl : g.is_loaded = true) (hm : g.model = some c)
    (hs : g.scaler = some s) (hx : x.length ≠ s.n_features) :
    PredictionModel.predict g x
      = .error (.wrappedException (.featureMismatch x.length s.n_features)) := by
  simp [PredictionModel.predict, PredictionModel.scalerTransform, hl, hm, hs, hx]

/-- Claim C7 witness: the amended statement instantiated on the loaded
39-feature gateway and a length-2 feature array. -/
theorem predict_mismatch_always_errors_witness :
    PredictionModel.predict gateway39 [0, 0]
      = .error (.wrappedException (.featureMismatch 2 39)) :=
  predict_mismatch_always_errors gateway39 tierOneClassifier scaler39 [0, 0]
    rfl rfl rfl (by norm_num [scaler39])

namespace AudioService

/-- `AudioService.ALLOWED_FORMATS`. -/
def ALLOWED_FORMATS : List String := ["wav", "webm", "mp3", "ogg"]

/-- `AudioService.MAX_FILE_SIZE_MB`. -/
def MAX_FILE_SIZE_MB : ℚ := 10

/-- `AudioService.MIN_DURATION_SEC`. -/
def MIN_DURATION_SEC : ℚ := 15

/-- `AudioService.MAX_DURATION_SEC`. -/
def MAX_DURATION_SEC : ℚ := 60

end AudioService

/-- What `librosa.load` recovers from the file: its duration in seconds and
native sample rate. -/
structure DecodedAudio where
  duration : ℚ
  sample_rate : ℕ
deriving DecidableEq

/-- An audio file on disk, as `validate_audio` observes it: whether the path
exists, the byte size, the lower-cased dot-stripped extension, and the
decode outcome (`none` when `librosa.load` raises — in particular a
zero-byte file holds no decodable audio stream). -/
structure AudioFile where
  onDisk : Bool
  size_bytes : ℕ
  ext : String
  decoded : Option DecodedAudio

/-- The raise sites of `validate_audio`, in source order: "Audio file not
found", "File too large", "Unsupported format", "Error reading audio file"
(the wrapped decode exception), "Audio too short", "Audio too long". -/
inductive AudioValidationErr
  | fileNotFound
  | fileTooLarge
  | unsupportedFormat
  | errorReadingAudio
  | audioTooShort
  | audioTooLong
deriving DecidableEq

/-- The metadata dictionary `validate_audio` returns on success. -/
structure ValidationReport where
  duration : ℚ
  sample_rate : ℕ
  file_size_mb : ℚ
  format : String
deriving DecidableEq

namespace AudioService

/-- `AudioService.validate_audio`: existence, then size, then extension,
then decodability, then duration (too short before too long), each check
short-circuiting on failure. -/
def validate_audio (f : AudioFile) : Except AudioValidationErr ValidationReport :=
  if f.onDisk = false then .error .fileNotFound
  else
    let file_size_mb : ℚ := (f.size_bytes : ℚ) / (1024 * 1024)
    if MAX_FILE_SIZE_MB < file_size_mb then .error .fileTooLarge
    else if f.ext ∉ ALLOWED_FORMATS then .error .unsupportedFormat
    else
      match f.decoded with
      | none => .error .errorReadingAudio
      | some d =>
        if d.duration < MIN_DURATION_SEC then .error .audioTooShort
        else if MAX_DURATION_SEC < d.duration then .error .audioTooLong
        else .ok ⟨d.duration, d.sample_rate, file_size_mb, f.ext⟩

end AudioService

/-- An existing, zero-byte file with the allowed `.wav` extension; holding no
bytes, it has no decodable audio stream. -/
def zeroByteWav : AudioFile :=
  { onDisk := true, size_bytes := 0, ext := "wav", decoded := none }

/-- Claim C8 counterexample: the existing zero-byte `.wav` file passes the
existence, size and extension checks and is rejected only when decoding
fails — an "Error reading audio file" rejection, not a NotFound or size
error as the claim states. -/
theorem validate_zero_byte_counterexample :
    AudioService.validate_audio zeroByteWav
      = .error .errorReadingAudio ∧
    AudioService.validate_audio zeroByteWav ≠ .error .fileNotFound ∧
    AudioService.validate_audio zeroByteWav ≠ .error .fileTooLarge := by
  refine ⟨?_, ?_, ?_⟩ <;>
    norm_num [AudioService.validate_audio, zeroByteWav,
      AudioService.MAX_FILE_SIZE_MB, AudioService.ALLOWED_FORMATS] <;>
    exact fun h => AudioValidationErr.noConfusion h

/-- Claim C8 (amended): `validate_audio` runs its checks in the order
existence, size, extension, decodability, duration, short-circuiting on the
first failure — but an existing 0-byte file with an allowed extension
passes the first three checks (there is no minimum-size check) and is
rejected by the decodability check with the wrapped "Error reading audio
file" error, not with a NotFound or size error. -/
theorem validate_audio_check_order (f : AudioFile) :
    (f.onDisk = false → AudioService.validate_audio f = .error .fileNotFound) ∧
    (f.onDisk = true →
        AudioService.MAX_FILE_SIZE_MB < (f.size_bytes : ℚ) / (1024 * 1024) →
        AudioService.validate_audio f = .error .fileTooLarge) ∧
    (f.onDisk = true →
        (f.size_bytes : ℚ) / (1024 * 1024) ≤ AudioService.MAX_FILE_SIZE_MB →
        f.ext ∉ AudioService.ALLOWED_FORMATS →
        AudioService.validate_audio f = .error .unsupportedFormat) ∧
    (f.onDisk = true →
        (f.size_bytes : ℚ) / (1024 * 1024) ≤ AudioService.MAX_FILE_SIZE_MB →
        f.ext ∈ AudioService.ALLOWED_FORMATS → f.decoded = none →
        AudioService.validate_audio f = .error .errorReadingAudio) ∧
    (∀ d, f.onDisk = true →
        (f.size_bytes : ℚ) / (1024 * 1024) ≤ AudioService.MAX_FILE_SIZE_MB →
        f.ext ∈ AudioService.ALLOWED_FORMATS → f.decoded = some d →
        d.duration < AudioService.MIN_DURATION_SEC →
        AudioService.validate_audio f = .error .audioTooShort) ∧
    (∀ d, f.onDisk = true →
        (f.size_bytes : ℚ) / (1024 * 1024) ≤ AudioService.MAX_FILE_SIZE_MB →
        f.ext ∈ AudioService.ALLOWED_FORMATS → f.decoded = some d →
        AudioService.MIN_DURATION_SEC ≤ d.duration →
        AudioService.MAX_DURATION_SEC < d.duration →
        AudioService.validate_audio f = .error .audioTooLong) ∧
    (∀ d, f.onDisk = true →
        (f.size_bytes : ℚ) / (1024 * 1024) ≤ AudioService.MAX_FILE_SIZE_MB →
        f.ext ∈ AudioService.ALLOWED_FORMATS → f.decoded = some d →
        AudioService.MIN_DURATION_SEC ≤ d.duration →
        d.duration ≤ AudioService.MAX_DURATION_SEC →
        AudioService.validate_audio f
          = .ok ⟨d.duration, d.sample_rate,
              (f.size_bytes : ℚ) / (1024 * 1024), f.ext⟩) ∧
    (f.onDisk = true → f.size_bytes = 0 →
        f.ext ∈ AudioService.ALLOWED_FORMATS → f.decoded = none →
        AudioService.validate_audio f = .error .errorReadingAudio) := by
  refine ⟨?_, ?_, ?_, ?_, ?_, ?_, ?_, ?_⟩
  · intro h
    simp [AudioService.validate_audio, h]
  · intro h1 h2
    simp [AudioService.validate_audio, h1, h2]
  · intro h1 h2 h3
    simp [AudioService.validate_audio, h1, not_lt.mpr h2, h3]
  · intro h1 h2 h3 h4
    simp [AudioService.validate_audio, h1, not_lt.mpr h2, h3, h4]
  · intro d h1 h2 h3 h4 h5
    simp [AudioService.validate_audio, h1, not_lt.mpr h2, h3, h4, h5]
  · intro d h1 h2 h3 h4 h5 h6
    simp [AudioService.validate_audio, h1, not_lt.mpr h2, h3, h4,
      not_lt.mpr h5, h6]
  · intro d h1 h2 h3 h4 h5 h6
    simp [AudioService.validate_audio, h1, not_lt.mpr h2, h3, h4,
      not_lt.mpr h5, not_lt.mpr h6]
  · intro h1 h2 h3 h4
    simp [AudioService.validate_audio, h1, h2, h3, h4]
    norm_num [AudioService.MAX_FILE_SIZE_MB]

/-- A well-formed one-megabyte 20-second WAV recording. -/
def twentySecWav : AudioFile :=
  { onDisk := true, size_bytes := 1048576, ext := "wav",
    decoded := some ⟨20, 22050⟩ }

/-- A 70-second WAV recording, over the 60-second maximum. -/
def seventySecWav : AudioFile :=
  { onDisk := true, size_bytes := 1048576, ext := "wav",
    decoded := some ⟨70, 22050⟩ }

/-- Claim C8 witness: the ordered-check statement instantiated on a
well-formed 20-second WAV (accepted) and on a 70-second WAV (rejected as
too long). -/
theorem validate_audio_check_order_witness :
    AudioService.validate_audio twentySecWav
      = .ok ⟨20, 22050, (1048576 : ℚ) / (1024 * 1024), "wav"⟩ ∧
    AudioService.validate_audio seventySecWav = .error .audioTooLong :=
  ⟨(validate_audio_check_order twentySecWav).2.2.2.2.2.2.1 ⟨20, 22050⟩
      rfl (by norm_num [AudioService.MAX_FILE_SIZE_MB, twentySecWav]) (by decide) rfl
      (by norm_num [AudioService.MIN_DURATION_SEC])
      (by norm_num [AudioService.MAX_DURATION_SEC]),
   (validate_audio_check_order seventySecWav).2.2.2.2.2.1 ⟨70, 22050⟩
      rfl (by norm_num [AudioService.MAX_FILE_SIZE_MB, seventySecWav]) (by decide) rfl
      (by norm_num [AudioService.MIN_DURATION_SEC])
      (by norm_num [AudioService.MAX_DURATION_SEC])⟩

/-- Python's `random` module, abstracted over its internal state: `seed`
builds the generator state from the integer seed, `randint` draws one
integer and advances the state. -/
structure PyRandom (σ : Type) where
  seed : ℤ → σ
  randint : σ → ℤ → ℤ → ℤ × σ

/-- One frontend sub-score entry: `value` and `trend`. -/
structure MetricEntry where
  value : ℤ
  trend : ℤ
deriving DecidableEq

/-- The four sub-scores returned by `_calculate_vocal_metrics`. -/
structure VocalMetrics where
  pitchStability : MetricEntry
  voiceClarity : MetricEntry
  breathControl : MetricEntry
  consistency : MetricEntry
deriving DecidableEq

/-- The four entries of a `VocalMetrics` record, for quantifying over them. -/
def VocalMetrics.entries (m : VocalMetrics) : List MetricEntry :=
  [m.pitchStability, m.voiceClarity, m.breathControl, m.consistency]

namespace PredictionService

/-- `PredictionService._calculate_vocal_metrics`: read `pitch_std`,
`jitter`, `shimmer`, `hnr` with default 0; clamp the four heuristic
sub-scores into `[0,100]` with `max(0, min(100, _))`; call
`random.seed(int(health_score))` — discarding whatever state the ambient
generator held — and draw `random.randint(-2, 2)` four times for the
trends; truncate each sub-score with `int()`. -/
def calculate_vocal_metrics {σ : Type} (R : PyRandom σ) (ambient : σ)
    (features : List (String × ℚ)) (health_score : ℤ) : VocalMetrics × σ :=
  let pitch_std := AudioService.dictGet features "pitch_std" 0
  let jitter := AudioService.dictGet features "jitter" 0
  let shimmer := AudioService.dictGet features "shimmer" 0
  let hnr := AudioService.dictGet features "hnr" 0
  let pitch_stability := max 0 (min 100 (100 - pitch_std * 10))
  let voice_clarity := max 0 (min 100 (hnr * 5))
  let breath_control := max 0 (min 100 (100 - shimmer * 1000))
  let consistency := max 0 (min 100 (100 - jitter * 10))
  let s0 := R.seed health_score
  let r1 := R.randint s0 (-2) 2
  let r2 := R.randint r1.2 (-2) 2
  let r3 := R.randint r2.2 (-2) 2
  let r4 := R.randint r3.2 (-2) 2
  (⟨⟨pyTrunc pitch_stability, r1.1⟩, ⟨pyTrunc voice_clarity, r2.1⟩,
    ⟨pyTrunc breath_control, r3.1⟩, ⟨pyTrunc consistency, r4.1⟩⟩, r4.2)

end PredictionService

theorem clamp_0_100_bounds (x : ℚ) :
    0 ≤ max 0 (min 100 x) ∧ max 0 (min 100 x) ≤ 100 :=
  ⟨le_max_left _ _, max_le (by norm_num) (min_le_left _ _)⟩

/-- Claim C9: on any generator whose `randint s lo hi` honours the
documented `[lo, hi]` range, `_calculate_vocal_metrics` returns the same
metrics for the same `(features, health_score)` arguments regardless of the
ambient generator state (the trends are reseeded from `health_score` on
every call), every trend is an integer in `[-2, 2]`, and every sub-score
value is an integer in `[0, 100]`. -/
theorem vocal_metrics_deterministic_and_bounded {σ : Type} (R : PyRandom σ)
    (hR : ∀ (s : σ) (lo hi : ℤ), lo ≤ hi →
        lo ≤ (R.randint s lo hi).1 ∧ (R.randint s lo hi).1 ≤ hi)
    (ambient1 ambient2 : σ) (features : List (String × ℚ))
    (health_score : ℤ) :
    (PredictionService.calculate_vocal_metrics R ambient1 features health_score).1
      = (PredictionService.calculate_vocal_metrics R ambient2 features
          health_score).1 ∧
    (∀ e ∈ (PredictionService.calculate_vocal_metrics R ambient1 features
        health_score).1.entries,
      -2 ≤ e.trend ∧ e.trend ≤ 2 ∧ 0 ≤ e.value ∧ e.value ≤ 100) := by
  refine ⟨rfl, ?_⟩
  intro e he
  simp only [PredictionService.calculate_vocal_metrics,
    VocalMetrics.entries, List.mem_cons, List.not_mem_nil, or_false] at he
  have hb : ∀ x : ℚ, 0 ≤ pyTrunc (max 0 (min 100 x)) ∧
      pyTrunc (max 0 (min 100 x)) ≤ 100 := fun x =>
    pyTrunc_clamp_bounds (clamp_0_100_bounds x).1 (clamp_0_100_bounds x).2
  have h22 : ((-2 : ℤ)) ≤ 2 := by norm_num
  rcases he with h | h | h | h <;> subst h <;>
    exact ⟨(hR _ _ _ h22).1, (hR _ _ _ h22).2, (hb _).1, (hb _).2⟩

/-- A concrete generator honouring the `randint` range: state `ℤ`, always
drawing the lower bound. -/
def floorRandom : PyRandom ℤ :=
  { seed := fun z => z, randint := fun s lo _ => (lo, s + 1) }

/-- Claim C9 witness: the determinism-and-bounds statement instantiated on
the concrete generator, two distinct ambient states, an empty feature
dictionary and `health_score = 77`. -/
theorem vocal_metrics_deterministic_and_bounded_witness :
    (PredictionService.calculate_vocal_metrics floorRandom 0 [] 77).1
      = (PredictionService.calculate_vocal_metrics floorRandom 5 [] 77).1 ∧
    (PredictionService.calculate_vocal_metrics
        floorRandom 0 [] 77).1.pitchStability.trend = -2 :=
  ⟨(vocal_metrics_deterministic_and_bounded floorRandom
      (fun _ lo _ h => ⟨le_refl lo, h⟩) 0 5 [] 77).1,
   rfl⟩
